import Mathlib

/-!
Shallow embedding of the `codeobject-interpretation.py` micro-benchmark
(graalpython, `com.oracle.graal.python.benchmarks/python/micro/`).

The script itself is pure glue.  Its observable behaviour is captured as a
trace of effects (disassembly output, executions of a code object) together
with an `Except`-style result that models Python exception propagation.
The host-runtime primitives the script calls (`compile`, `dis.dis`,
`__graalpython__.compile_cpyc`, `marshal.loads`, and the execution of a code
object by `exec`) live outside the benchmark file; they are modelled as an
abstract `Host` record, so the harness functions below are faithful
translations of the script over any such host.
-/

namespace PyBench

/-- Errors a host-runtime primitive can raise, as the specification names
them: a compilation (syntax) error, a deserialization (unmarshal) error, and
an error raised while executing a code object. -/
inductive PyError where
  | compileError
  | deserializationError
  | execError
  deriving DecidableEq

/-- Observable side effects of the harness: a disassembly listing printed to
standard output by `dis.dis`, or one execution of a compiled code object by
`exec`. -/
inductive Effect (Code : Type) where
  | disOutput (listing : String)
  | execution (c : Code)
  deriving DecidableEq

/-- Modelled from the spec: the host-runtime primitives that the benchmark
script calls but that are not part of the script itself.  `compile` takes
source, filename and mode (the script always passes mode `"exec"`) and either
returns a code object or raises; `dis` renders the disassembly listing that
`dis.dis` prints; `compile_cpyc` is the environment-provided fast compilation
primitive returning a binary-serialized blob; `loads` is `marshal.loads`,
which deserializes a blob or raises; `exec` runs a code object, which may
raise whatever the code itself raises.  `implName` is the process-global
runtime identifier `sys.implementation.name`. -/
structure Host (Code : Type) where
  implName : String
  compile : String → String → String → Except PyError Code
  dis : Code → String
  compile_cpyc : String → String → List Nat
  loads : List Nat → Except PyError Code
  exec : Code → Except PyError Unit

/-- `IS_GRAAL = sys.implementation.name == "graalpython"`. -/
def IS_GRAAL {Code : Type} (host : Host Code) : Bool :=
  host.implName == "graalpython"

/-- The branched definition of `get_code`:
on the graal path `lambda n,s: marshal.loads(__graalpython__.compile_cpyc(n,s))`,
otherwise compile the source under the name in `"exec"` mode, print its
disassembly, and return the code object.  A raised error propagates and cuts
the effect trace at the point it is raised. -/
def get_code {Code : Type} (host : Host Code) (n s : String) :
    List (Effect Code) × Except PyError Code :=
  if IS_GRAAL host then
    match host.loads (host.compile_cpyc n s) with
    | Except.error e => ([], Except.error e)
    | Except.ok c => ([], Except.ok c)
  else
    match host.compile s n "exec" with
    | Except.error e => ([], Except.error e)
    | Except.ok c => ([Effect.disOutput (host.dis c)], Except.ok c)

/-- The fixed sample source passed to `get_code` at module load. -/
def SAMPLE_SOURCE : String :=
  "\nimport sys\n# def foo():\n#   pass\nlen(sys.__name__)\n"

/-- Module-load acquisition: `CODE = get_code("bench.py", ...)`. -/
def CODE {Code : Type} (host : Host Code) :
    List (Effect Code) × Except PyError Code :=
  get_code host "bench.py" SAMPLE_SOURCE

/-- Python `range(num)` over an integer argument: `num` consecutive indices,
empty whenever `num ≤ 0`. -/
def pyRange (num : Int) : List Nat :=
  List.range num.toNat

/-- The body of `measure`: the loop `for i in range(num): exec(CODE)`,
run over a list of loop indices.  Each iteration performs one execution of
the stored code object; an error raised by the execution propagates and stops
the loop. -/
def measureLoop {Code : Type} (host : Host Code) (c : Code) :
    List Nat → List (Effect Code) × Except PyError Unit
  | [] => ([], Except.ok ())
  | _ :: rest =>
    match host.exec c with
    | Except.error e => ([Effect.execution c], Except.error e)
    | Except.ok _ =>
      let r := measureLoop host c rest
      (Effect.execution c :: r.1, r.2)

/-- `def measure(num): for i in range(num): exec(CODE)` — parameterized by
the module-global code object `c` that `CODE` successfully produced at module
load (the module does not load at all if acquisition raised). -/
def measure {Code : Type} (host : Host Code) (c : Code) (num : Int) :
    List (Effect Code) × Except PyError Unit :=
  measureLoop host c (pyRange num)

/-- The default iteration count of `__benchmark__`. -/
def benchmarkDefaultNum : Int := 5

/-- `def __benchmark__(num=5): measure(num)`. -/
def __benchmark__ {Code : Type} (host : Host Code) (c : Code) (num : Int) :
    List (Effect Code) × Except PyError Unit :=
  measure host c num

/-- Calling `__benchmark__` with no arguments uses the default `num=5`. -/
def __benchmark__noArgs {Code : Type} (host : Host Code) (c : Code) :
    List (Effect Code) × Except PyError Unit :=
  __benchmark__ host c benchmarkDefaultNum

/-- Recognizes the execution events of a trace. -/
def isExecution {Code : Type} : Effect Code → Bool
  | Effect.execution _ => true
  | _ => false

/-- Number of executions of the stored code object recorded in a trace. -/
def execCount {Code : Type} (effs : List (Effect Code)) : Nat :=
  effs.countP isExecution

/-- Two successive calls of `measure` with the same `num`: the second call
runs only if the first completed normally, and the observable trace is the
concatenation of the two traces. -/
def measureTwice {Code : Type} (host : Host Code) (c : Code) (num : Int) :
    List (Effect Code) × Except PyError Unit :=
  match measure host c num with
  | (e1, Except.error err) => (e1, Except.error err)
  | (e1, Except.ok _) =>
    match measure host c num with
    | (e2, r2) => (e1 ++ e2, r2)

/-- A concrete reference-runtime host used to instantiate the theorems. -/
def wHost : Host Nat where
  implName := "python"
  compile := fun _ _ _ => Except.ok 0
  dis := fun _ => "listing"
  compile_cpyc := fun _ _ => []
  loads := fun _ => Except.ok 0
  exec := fun _ => Except.ok ()

/-- A concrete reference-runtime host whose compiler always raises. -/
def wBadHost : Host Nat where
  implName := "python"
  compile := fun _ _ _ => Except.error PyError.compileError
  dis := fun _ => "listing"
  compile_cpyc := fun _ _ => []
  loads := fun _ => Except.ok 0
  exec := fun _ => Except.ok ()

/-- A concrete alternative-runtime (graal) host. -/
def wGraalHost : Host Nat where
  implName := "graalpython"
  compile := fun _ _ _ => Except.ok 0
  dis := fun _ => "listing"
  compile_cpyc := fun _ _ => [7]
  loads := fun _ => Except.error PyError.deserializationError
  exec := fun _ => Except.ok ()

theorem measureLoop_ok {Code : Type} (host : Host Code) (c : Code)
    (hx : host.exec c = Except.ok ()) :
    ∀ l : List Nat,
      measureLoop host c l =
        (List.replicate l.length (Effect.execution c), Except.ok ())
  | [] => rfl
  | _ :: rest => by
    simp only [measureLoop, hx, measureLoop_ok host c hx rest,
      List.length_cons, List.replicate]

theorem execCount_replicate {Code : Type} (c : Code) (k : Nat) :
    execCount (List.replicate k (Effect.execution c)) = k := by
  induction k with
  | zero => rfl
  | succ n ih =>
    simp only [execCount] at ih
    simp only [List.replicate_succ, execCount, List.countP_cons, isExecution, ih,
      if_true]

/-- C1: for every non-negative integer `num`, `measure(num)` performs exactly
`num` sequential executions of the stored code object (in particular none for
`num = 0`), completes without raising, and returns no value. -/
theorem measure_executes_num_times {Code : Type} (host : Host Code) (c : Code)
    (num : Int) (hnn : 0 ≤ num) (hx : host.exec c = Except.ok ()) :
    (measure host c num).1 = List.replicate num.toNat (Effect.execution c) ∧
    (execCount (measure host c num).1 : Int) = num ∧
    (measure host c num).2 = Except.ok () := by
  have h := measureLoop_ok host c hx (pyRange num)
  have hlen : (pyRange num).length = num.toNat := List.length_range num.toNat
  refine ⟨?_, ?_, ?_⟩
  · rw [measure, h, hlen]
  · rw [measure, h, hlen, execCount_replicate, Int.toNat_of_nonneg hnn]
  · rw [measure, h]

theorem measure_executes_num_times_witness :
    (measure wHost 0 3).1 = List.replicate (Int.toNat 3) (Effect.execution 0) ∧
    (execCount (measure wHost 0 3).1 : Int) = 3 ∧
    (measure wHost 0 3).2 = Except.ok () :=
  measure_executes_num_times wHost 0 3 (by decide) rfl

/-- C2: `__benchmark__` called with no arguments executes the stored code
exactly 5 times, and for every `num` it delegates directly to `measure`. -/
theorem benchmark_default_and_delegates {Code : Type} (host : Host Code)
    (c : Code) (hx : host.exec c = Except.ok ()) :
    execCount (__benchmark__noArgs host c).1 = 5 ∧
    (__benchmark__noArgs host c).2 = Except.ok () ∧
    ∀ num : Int, __benchmark__ host c num = measure host c num := by
  have h := measureLoop_ok host c hx (pyRange benchmarkDefaultNum)
  have hlen : (pyRange benchmarkDefaultNum).length = 5 := rfl
  refine ⟨?_, ?_, fun num => rfl⟩
  · show execCount (measure host c benchmarkDefaultNum).1 = 5
    rw [measure, h, hlen, execCount_replicate]
  · show (measure host c benchmarkDefaultNum).2 = Except.ok ()
    rw [measure, h]

theorem benchmark_default_and_delegates_witness :
    execCount (__benchmark__noArgs wHost 0).1 = 5 ∧
    (__benchmark__noArgs wHost 0).2 = Except.ok () ∧
    ∀ num : Int, __benchmark__ wHost 0 num = measure wHost 0 num :=
  benchmark_default_and_delegates wHost 0 rfl

/-- C3: runtime detection returns true if and only if the process-global
runtime identifier `sys.implementation.name` equals `"graalpython"`; it is a
total function of that identifier and has no failure result. -/
theorem IS_GRAAL_iff_graalpython {Code : Type} (host : Host Code) :
    IS_GRAAL host = true ↔ host.implName = "graalpython" := by
  simp [IS_GRAAL]

/-- C4: on the fallback path, `get_code` with source the compiler rejects
propagates the compile error and performs no disassembly output: the effect
trace is empty. -/
theorem get_code_invalid_source_no_output {Code : Type} (host : Host Code)
    (n s : String) (hpath : host.implName ≠ "graalpython")
    (hc : host.compile s n "exec" = Except.error PyError.compileError) :
    get_code host n s = ([], Except.error PyError.compileError) := by
  have hg : IS_GRAAL host = false := by simp [IS_GRAAL, hpath]
  simp [get_code, hg, hc]

theorem get_code_invalid_source_no_output_witness :
    get_code wBadHost "bench.py" "def :" =
      ([], Except.error PyError.compileError) :=
  get_code_invalid_source_no_output wBadHost "bench.py" "def :"
    (by decide) rfl

/-- C5: on the fallback path, for every name and source the compiler accepts,
`get_code` compiles the source under the given name in `"exec"` mode, prints
the disassembly listing of the resulting code object as its only side effect,
and returns that code object. -/
theorem get_code_valid_source_dis {Code : Type} (host : Host Code)
    (n s : String) (c : Code) (hpath : host.implName ≠ "graalpython")
    (hc : host.compile s n "exec" = Except.ok c) :
    get_code host n s = ([Effect.disOutput (host.dis c)], Except.ok c) := by
  have hg : IS_GRAAL host = false := by simp [IS_GRAAL, hpath]
  simp [get_code, hg, hc]

theorem get_code_valid_source_dis_witness :
    get_code wHost "bench.py" "x = 1" =
      ([Effect.disOutput (wHost.dis 0)], Except.ok 0) :=
  get_code_valid_source_dis wHost "bench.py" "x = 1" 0 (by decide) rfl

/-- C6: under the alternative runtime, `get_code` returns exactly the result
of deserializing (`marshal.loads`) the blob produced by the fast compilation
primitive `compile_cpyc` on the name and source, with no side effect, and a
blob the deserializer rejects makes `get_code` fail with the
deserialization error. -/
theorem get_code_graal_unmarshals {Code : Type} (host : Host Code)
    (n s : String) (hpath : host.implName = "graalpython") :
    (get_code host n s).1 = [] ∧
    (get_code host n s).2 = host.loads (host.compile_cpyc n s) ∧
    (host.loads (host.compile_cpyc n s) =
        Except.error PyError.deserializationError →
      (get_code host n s).2 = Except.error PyError.deserializationError) := by
  have hg : IS_GRAAL host = true := by simp [IS_GRAAL, hpath]
  refine ⟨?_, ?_, fun hde => ?_⟩
  · cases hl : host.loads (host.compile_cpyc n s) <;> simp [get_code, hg, hl]
  · cases hl : host.loads (host.compile_cpyc n s) <;> simp [get_code, hg, hl]
  · simp [get_code, hg, hde]

theorem get_code_graal_unmarshals_witness :
    (get_code wGraalHost "bench.py" "x = 1").1 = [] ∧
    (get_code wGraalHost "bench.py" "x = 1").2 =
      wGraalHost.loads (wGraalHost.compile_cpyc "bench.py" "x = 1") ∧
    (wGraalHost.loads (wGraalHost.compile_cpyc "bench.py" "x = 1") =
        Except.error PyError.deserializationError →
      (get_code wGraalHost "bench.py" "x = 1").2 =
        Except.error PyError.deserializationError) :=
  get_code_graal_unmarshals wGraalHost "bench.py" "x = 1" rfl

/-- C7: if acquisition of the fixed sample source succeeded (on whichever
runtime path the host takes) and executing the acquired code object does not
raise, then `measure(5)` completes without raising after performing exactly
5 executions. -/
theorem end_to_end_measure_ok {Code : Type} (host : Host Code) (c : Code)
    (effs : List (Effect Code))
    (hacq : CODE host = (effs, Except.ok c))
    (hx : host.exec c = Except.ok ()) :
    (CODE host).2 = Except.ok c ∧
    (measure host c 5).2 = Except.ok () ∧
    execCount (measure host c 5).1 = 5 := by
  have h := measureLoop_ok host c hx (pyRange 5)
  refine ⟨by rw [hacq], by rw [measure, h], ?_⟩
  rw [measure, h, show (pyRange 5).length = 5 from rfl, execCount_replicate]

theorem end_to_end_measure_ok_witness :
    (CODE wHost).2 = Except.ok 0 ∧
    (measure wHost 0 5).2 = Except.ok () ∧
    execCount (measure wHost 0 5).1 = 5 :=
  end_to_end_measure_ok wHost 0 [Effect.disOutput "listing"] rfl rfl

/-- C8: two successive calls of `measure` with the same `num` behave
identically: the combined trace is the first call's trace followed by an
identical trace, and each call contributes the same number of executions. -/
theorem measure_idempotent_count {Code : Type} (host : Host Code) (c : Code)
    (num : Int) (hx : host.exec c = Except.ok ()) :
    measureTwice host c num =
      ((measure host c num).1 ++ (measure host c num).1, Except.ok ()) ∧
    execCount (measureTwice host c num).1 =
      execCount (measure host c num).1 + execCount (measure host c num).1 := by
  have hm : measure host c num =
      (List.replicate (pyRange num).length (Effect.execution c),
        Except.ok ()) := measureLoop_ok host c hx (pyRange num)
  have ht : measureTwice host c num =
      ((measure host c num).1 ++ (measure host c num).1, Except.ok ()) := by
    simp only [measureTwice, hm]
  refine ⟨ht, ?_⟩
  rw [ht]
  simp [execCount, List.countP_append]

theorem measure_idempotent_count_witness :
    measureTwice wHost 0 2 =
      ((measure wHost 0 2).1 ++ (measure wHost 0 2).1, Except.ok ()) ∧
    execCount (measureTwice wHost 0 2).1 =
      execCount (measure wHost 0 2).1 + execCount (measure wHost 0 2).1 :=
  measure_idempotent_count wHost 0 2 rfl

theorem measureLoop_trace_replicate {Code : Type} (host : Host Code)
    (c : Code) :
    ∀ l : List Nat,
      ∃ k, (measureLoop host c l).1 = List.replicate k (Effect.execution c)
  | [] => ⟨0, rfl⟩
  | _ :: rest => by
    cases hx : host.exec c with
    | error e => exact ⟨1, by simp [measureLoop, hx, List.replicate]⟩
    | ok u =>
      obtain ⟨k, hk⟩ := measureLoop_trace_replicate host c rest
      exact ⟨k + 1, by simp [measureLoop, hx, hk, List.replicate_succ]⟩

/-- C9: every invocation of `measure` and `__benchmark__` executes the same
single stored code object at every iteration: the whole effect trace consists
of repetitions of exactly one execution event for that object, and the stored
object itself is never replaced or modified. -/
theorem measure_same_object_each_iteration {Code : Type} (host : Host Code)
    (c : Code) (num : Int) :
    (∃ k, (measure host c num).1 = List.replicate k (Effect.execution c)) ∧
    (∃ k, (__benchmark__ host c num).1 =
      List.replicate k (Effect.execution c)) :=
  ⟨measureLoop_trace_replicate host c (pyRange num),
   measureLoop_trace_replicate host c (pyRange num)⟩

/-- C10: for every negative integer `num`, `measure(num)` iterates over the
empty range, so it performs no executions and returns normally. -/
theorem measure_negative_num_empty {Code : Type} (host : Host Code)
    (c : Code) (num : Int) (hneg : num < 0) :
    measure host c num = ([], Except.ok ()) := by
  have h0 : num.toNat = 0 := Int.toNat_of_nonpos (le_of_lt hneg)
  rw [measure, pyRange, h0]
  rfl

theorem measure_negative_num_empty_witness :
    measure wHost 0 (-3) = ([], Except.ok ()) :=
  measure_negative_num_empty wHost 0 (-3) (by decide)

end PyBench
